import Mathlib

/-!
Shallow embedding of the `aws-static-website` CDK application:
`lib/crud-construct.ts` (CRUDConstruct), the API-gateway construct
(`ApiGatewayLambdaConstruct`) and the stack (`StaticWebsiteStack`),
together with the verification of the specification's claims about them.
-/

namespace AwsStaticWebsite

/-! ## String helper lemmas -/

theorem append_string_ne_of_ne (a b t : String) (hl : a.length = b.length)
    (hne : a ≠ b) : a ++ t ≠ b ++ t := by
  intro h
  apply hne
  have hd : (a ++ t).data = (b ++ t).data := congrArg String.data h
  rw [String.data_append, String.data_append] at hd
  exact String.ext (List.append_inj_left hd hl)

theorem append_string_ne_of_length_ne (a b t : String)
    (hl : a.length ≠ b.length) : a ++ t ≠ b ++ t := by
  intro h
  apply hl
  have h2 := congrArg String.length h
  rw [String.length_append, String.length_append] at h2
  omega

theorem prefix_append_ne (a b p t : String) (hl : a.length = b.length)
    (hne : a ≠ b) : a ++ p ++ t ≠ b ++ p ++ t := by
  refine append_string_ne_of_ne _ _ _ ?_ ?_
  · rw [String.length_append, String.length_append, hl]
  · intro h
    apply hne
    have hd := congrArg String.data h
    rw [String.data_append, String.data_append] at hd
    exact String.ext (List.append_inj_left hd hl)

theorem prefix_append_ne_of_length_ne (a b p t : String)
    (hl : a.length ≠ b.length) : a ++ p ++ t ≠ b ++ p ++ t := by
  refine append_string_ne_of_length_ne _ _ _ ?_
  rw [String.length_append, String.length_append]
  omega

/-! ## Data model: IAM, DynamoDB, Lambda -/

/-- A capability granted on the table (`grantReadData` / `grantWriteData`). -/
inductive Capability
  | Read
  | Write
  deriving DecidableEq, Repr

/-- One policy statement attached to a role: a capability on a named table. -/
structure PolicyStatement where
  tableName : String
  capability : Capability
  deriving DecidableEq, Repr

/-- An IAM `Role` as created by `new Role(this, id, {...})` in
`crud-construct.ts`, carrying its attached policy statements. -/
structure Role where
  constructId : String
  roleName : String
  assumedBy : String
  description : String
  policy : List PolicyStatement
  deriving DecidableEq, Repr

/-- A DynamoDB attribute definition (`{ name, type }`). -/
structure AttributeDefinition where
  name : String
  attrType : String
  deriving DecidableEq, Repr

/-- Table properties `TableProps` as used in `StaticWebsiteStack` (partition
key, optional sort key, billing mode, table name, removal policy). -/
structure TableProps where
  partitionKey : AttributeDefinition
  sortKey : Option AttributeDefinition
  billingMode : String
  tableName : String
  removalPolicy : String
  deriving DecidableEq, Repr

/-- The DynamoDB `Table` resource created by `new Table(this, props.tableId, {...props.table})`. -/
structure Table where
  constructId : String
  props : TableProps
  deriving DecidableEq, Repr

/-- The table-name attribute exposed by the table handle (`this._table.tableName`). -/
def Table.tableName (t : Table) : String := t.props.tableName

/-- Modelled from the spec: `Table.grantReadData` / `Table.grantWriteData` are
implemented by the external `aws-cdk-lib` package, not by this repository's
source; per the spec the PermissionGrant Resolver computes the minimal policy
statement for the requested capability on the object and attaches it to the
subject role idempotently (re-requesting an already-present grant is a no-op,
adding no duplicate statement). -/
def grantData (cap : Capability) (t : Table) (role : Role) : Role :=
  if PolicyStatement.mk t.tableName cap ∈ role.policy then role
  else { role with policy := role.policy ++ [PolicyStatement.mk t.tableName cap] }

/-- Read grant `table.grantReadData(role)`. -/
def grantReadData (t : Table) (role : Role) : Role := grantData Capability.Read t role

/-- Write grant `table.grantWriteData(role)`. -/
def grantWriteData (t : Table) (role : Role) : Role := grantData Capability.Write t role

/-- A Lambda `Function` as created by `CRUDConstruct._createLambdas`. -/
structure LambdaFunction where
  constructId : String
  functionName : String
  codeAsset : String
  runtime : String
  handler : String
  memorySize : Nat
  timeoutSeconds : Nat
  environment : List (String × String)
  role : Role
  deriving DecidableEq, Repr

/-! ## CRUDConstruct (`lib/crud-construct.ts`) -/

/-- Props `CRUDConstructProps` from `crud-construct.ts`. -/
structure CRUDConstructProps where
  tableId : String
  table : TableProps
  lambdaPrefixId : String
  lambdaPackage : String
  deriving DecidableEq, Repr

/-- The dictionary of CRUD IAM roles returned by `_createLambdaRoles`. -/
structure CRUDRoles where
  createRole : Role
  updateRole : Role
  getRole : Role
  deleteRole : Role
  deriving DecidableEq, Repr

/-- A fresh execution role (`new Role`) before any grant: `assumedBy` is the
lambda service principal and the policy is empty. -/
def mkServiceRole (cid rname : String) : Role :=
  { constructId := cid
    roleName := rname
    assumedBy := "lambda.amazonaws.com"
    description := "Allow lambda to call dynamodb tables"
    policy := [] }

/-- Helper `CRUDConstruct._createLambdaRoles(lambdaPrefixId, table)`: creates the four
roles (get/create/update/delete) and issues one grant per role —
`grantReadData` for the get role, `grantWriteData` for the other three. -/
def createLambdaRoles (lambdaPrefixId : String) (table : Table) : CRUDRoles :=
  let getLambdaRole := grantReadData table
    (mkServiceRole ("Get" ++ lambdaPrefixId ++ "-Role") ("get-" ++ lambdaPrefixId ++ "-role"))
  let createLambdaRole := grantWriteData table
    (mkServiceRole ("Create" ++ lambdaPrefixId ++ "-Role") ("create-" ++ lambdaPrefixId ++ "-role"))
  let updateLambdaRole := grantWriteData table
    (mkServiceRole ("Update" ++ lambdaPrefixId ++ "-Role") ("update-" ++ lambdaPrefixId ++ "-role"))
  let deleteLambdaRole := grantWriteData table
    (mkServiceRole ("Delete" ++ lambdaPrefixId ++ "-Role") ("delete-" ++ lambdaPrefixId ++ "-role"))
  { createRole := createLambdaRole
    updateRole := updateLambdaRole
    getRole := getLambdaRole
    deleteRole := deleteLambdaRole }

/-- Helper `CRUDConstruct._createLambdas` applied to a lambda prefix id, package
name, function-name prefix id, table name and role: one Lambda function with the fixed configuration from the
source (`resources` asset, Python 3.9, 128 MB, 30 s timeout, `TODO_DATABASE`
environment variable). -/
def createLambdas (lambdaPrefixId lambdaPackageName fnNamePref tableName : String)
    (role : Role) : LambdaFunction :=
  { constructId := fnNamePref ++ "-" ++ lambdaPrefixId
    functionName := fnNamePref ++ "-" ++ lambdaPrefixId
    codeAsset := "resources"
    runtime := "PYTHON_3_9"
    handler := lambdaPackageName ++ "." ++ fnNamePref ++ "_" ++ lambdaPrefixId
    memorySize := 128
    timeoutSeconds := 30
    environment := [("TODO_DATABASE", tableName)]
    role := role }

/-- The `CRUDConstruct` state after its constructor ran: the table and the four
lambdas (get/update/create/delete), exposed by the public getters. -/
structure CRUDConstruct where
  table : Table
  getLambda : LambdaFunction
  updateLambda : LambdaFunction
  createLambda : LambdaFunction
  deleteLambda : LambdaFunction
  deriving DecidableEq, Repr

/-- The `CRUDConstruct` constructor: creates the table, the four roles with
their grants, and the four lambdas (create, update, delete, get in source
order), each bound to its corresponding role. -/
def buildCRUDConstruct (props : CRUDConstructProps) : CRUDConstruct :=
  let table : Table := { constructId := props.tableId, props := props.table }
  let roles := createLambdaRoles props.lambdaPrefixId table
  let createL := createLambdas props.lambdaPrefixId props.lambdaPackage "create"
    table.tableName roles.createRole
  let updateL := createLambdas props.lambdaPrefixId props.lambdaPackage "update"
    table.tableName roles.updateRole
  let deleteL := createLambdas props.lambdaPrefixId props.lambdaPackage "delete"
    table.tableName roles.deleteRole
  let getL := createLambdas props.lambdaPrefixId props.lambdaPackage "get"
    table.tableName roles.getRole
  { table := table
    getLambda := getL
    updateLambda := updateL
    createLambda := createL
    deleteLambda := deleteL }

/-! ## ApiGatewayLambdaConstruct (`api-gateway-lambda-construct.ts`) -/

/-- HTTP method of a lambda API entry (`"GET" | "POST" | "PUT" | "DELETE"`). -/
inductive HttpMethod
  | GET
  | POST
  | PUT
  | DELETE
  deriving DecidableEq, Repr

/-- A `LambdaIntegration` as built inside `addLambdaIntegration`: the target
function and the `application/json` request template string. -/
structure LambdaIntegration where
  fn : LambdaFunction
  requestTemplateJson : String
  deriving DecidableEq, Repr

/-- Integration built by `addLambdaIntegration` via `new LambdaIntegration`,
with the `application/json` request-template string taken verbatim from the
source. -/
def mkLambdaIntegration (fn : LambdaFunction) : LambdaIntegration :=
  { fn := fn
    requestTemplateJson := "\x7b\"statusCode\": \"200\"" }

/-- One registered resource on the REST API: path, method and integration. -/
structure ApiRegistration where
  path : String
  method : HttpMethod
  integration : LambdaIntegration
  deriving DecidableEq, Repr

/-- The `ApiGatewayLambdaConstruct` state: the URL pieces stored by its
constructor, the deployed stage, and the resources registered so far. -/
structure ApiGatewayLambdaConstruct where
  urlSuffix : String
  region : String
  restApiId : String
  stageName : String
  registrations : List ApiRegistration
  deriving DecidableEq, Repr

/-- The `ApiEndpoint` getter:
`restApiId ++ ".execute-api." ++ region ++ "." ++ urlSuffix`. -/
def ApiGatewayLambdaConstruct.apiEndpoint (a : ApiGatewayLambdaConstruct) : String :=
  a.restApiId ++ ".execute-api." ++ a.region ++ "." ++ a.urlSuffix

/-- One entry of the `lambdaApis` array in `StaticWebsiteStack`. -/
structure LambdaApi where
  name : String
  fn : LambdaFunction
  type : HttpMethod
  deriving DecidableEq, Repr

/-- Method `addLambdaIntegration(lambda)`: registers `/api/` plus the entry's
name with the
entry's method and a `LambdaIntegration` forwarding to the entry's function. -/
def addLambdaIntegration (api : ApiGatewayLambdaConstruct) (lambda : LambdaApi) :
    ApiGatewayLambdaConstruct :=
  { api with registrations :=
      api.registrations ++
        [{ path := "/api/" ++ lambda.name
           method := lambda.type
           integration := mkLambdaIntegration lambda.fn }] }

/-- The `ApiGatewayLambdaConstruct` constructor: stores `urlSuffix` and
`region`, creates the REST API (stage `"prod"` in the stack's props), with no
resource registered yet. -/
def mkRestApi (region urlSuffix restApiId stageName : String) : ApiGatewayLambdaConstruct :=
  { urlSuffix := urlSuffix
    region := region
    restApiId := restApiId
    stageName := stageName
    registrations := [] }

/-! ## StaticWebsiteStack (`static-website-stack.ts`) -/

/-- The `CRUDConstructProps` passed to `new CRUDConstruct(this, "TODOS-CRUD", ...)`. -/
def todosCRUDProps : CRUDConstructProps :=
  { tableId := "Todos-Table"
    table :=
      { partitionKey := { name := "user_id", attrType := "STRING" }
        sortKey := some { name := "id", attrType := "STRING" }
        billingMode := "PAY_PER_REQUEST"
        tableName := "todos-table"
        removalPolicy := "DESTROY" }
    lambdaPrefixId := "todos"
    lambdaPackage := "index" }

/-- Stack construct `todosCRUD = new CRUDConstruct(this, "TODOS-CRUD", ...)`. -/
def todosCRUD : CRUDConstruct := buildCRUDConstruct todosCRUDProps

/-- The `lambdaApis` array of `StaticWebsiteStack`, in source order. -/
def stackLambdaApis : List LambdaApi :=
  [ { name := "getTodos", fn := todosCRUD.getLambda, type := HttpMethod.GET }
  , { name := "createTodo", fn := todosCRUD.createLambda, type := HttpMethod.POST }
  , { name := "updateTodo", fn := todosCRUD.updateLambda, type := HttpMethod.PUT }
  , { name := "deleteTodo", fn := todosCRUD.deleteLambda, type := HttpMethod.DELETE } ]

/-- Result of `lambdaApis.forEach((lambda) => restApi.addLambdaIntegration(lambda))` over
the REST API created by the stack (`region`/`urlSuffix`/id are deploy-time
values of the stack, stage name `"prod"`). -/
def stackRestApi (region urlSuffix restApiId : String) : ApiGatewayLambdaConstruct :=
  stackLambdaApis.foldl addLambdaIntegration (mkRestApi region urlSuffix restApiId "prod")

/-- Paths registered on a gateway, in registration order. -/
def registeredPaths (api : ApiGatewayLambdaConstruct) : List String :=
  api.registrations.map ApiRegistration.path

/-! ## CloudFront origins, behaviors and the distribution -/

/-- An S3 `Bucket` as created in the stack. -/
structure Bucket where
  constructId : String
  versioned : Bool
  encryption : String
  blockPublicAccess : String
  bucketName : Option String
  removalPolicy : String
  deriving DecidableEq, Repr

/-- The cookie-forwarding part of `forwardedValues`. -/
structure CookiesPolicy where
  forward : String
  deriving DecidableEq, Repr

/-- Forwarded values (`forwardedValues`) of a CloudFront behavior. -/
structure ForwardedValues where
  queryString : Bool
  cookies : CookiesPolicy
  headers : Option (List String)
  deriving DecidableEq, Repr

/-- The origin of a `SourceConfiguration`: either the custom origin pointing at
the API gateway endpoint, or the S3 origin for the static-assets bucket. -/
inductive OriginSource
  | customOrigin (domainName : String) (originPath : String) (originProtocolPolicy : String)
  | s3Origin (s3BucketSource : Bucket) (originAccessIdentity : String)
  deriving DecidableEq, Repr

/-- One CloudFront behavior (route binding): path pattern, default flag,
method policy, cache TTLs (in minutes, `none` when the field is absent in the
source) and forwarded values. -/
structure Behavior where
  pathPattern : Option String
  isDefaultBehavior : Bool
  allowedMethods : String
  cachedMethods : Option String
  defaultTtlMinutes : Option Nat
  maxTtlMinutes : Option Nat
  forwardedValues : ForwardedValues
  deriving DecidableEq, Repr

/-- A `SourceConfiguration`: an origin and its list of behaviors. -/
structure SourceConfiguration where
  origin : OriginSource
  behaviors : List Behavior
  deriving DecidableEq, Repr

/-- The `/api/*` behavior bound to the API-gateway origin in the stack:
all methods allowed, GET/HEAD/OPTIONS cached, `defaultTtl: Duration.minutes(0)`,
query string and the listed headers forwarded, no cookies. -/
def apiBehavior : Behavior :=
  { pathPattern := some "/api/*"
    isDefaultBehavior := false
    allowedMethods := "ALL"
    cachedMethods := some "GET_HEAD_OPTIONS"
    defaultTtlMinutes := some 0
    maxTtlMinutes := none
    forwardedValues :=
      { queryString := true
        cookies := { forward := "none" }
        headers := some
          [ "Authorization", "user", "x-forwarded-user", "Accept", "Referer"
          , "Content-Type", "Access-Control-Request-Headers"
          , "Access-Control-Request-Method", "Origin" ] } }

/-- The default behavior bound to the S3 origin in the stack:
`isDefaultBehavior: true`, all methods allowed, `maxTtl: Duration.minutes(5)`,
`defaultTtl: Duration.minutes(3)`, query string and all cookies forwarded. -/
def s3DefaultBehavior : Behavior :=
  { pathPattern := none
    isDefaultBehavior := true
    allowedMethods := "ALL"
    cachedMethods := none
    defaultTtlMinutes := some 3
    maxTtlMinutes := some 5
    forwardedValues :=
      { queryString := true
        cookies := { forward := "all" }
        headers := none } }

/-- The `originsAndBehavior` array of `StaticWebsiteStack`: the API-gateway
custom origin (origin path `/${restApi.StageName}`, HTTPS only) with the
`/api/*` behavior, then the S3 origin with the default behavior. -/
def originsAndBehavior (restApi : ApiGatewayLambdaConstruct)
    (staticAssetsBucket : Bucket) (accessIdentity : String) :
    List SourceConfiguration :=
  [ { origin := OriginSource.customOrigin restApi.apiEndpoint
        ("/" ++ restApi.stageName) "HTTPS_ONLY"
      behaviors := [apiBehavior] }
  , { origin := OriginSource.s3Origin staticAssetsBucket accessIdentity
      behaviors := [s3DefaultBehavior] } ]

/-- One error-remapping rule of the distribution. -/
structure ErrorConfiguration where
  errorCode : Nat
  responseCode : Nat
  responsePagePath : String
  deriving DecidableEq, Repr

/-- The `CloudFrontWebDistribution` configuration the stack creates. -/
structure Distribution where
  originConfigs : List SourceConfiguration
  defaultRootObject : String
  errorConfigurations : List ErrorConfiguration
  viewerProtocolPolicy : String
  comment : String
  deriving DecidableEq, Repr

/-- Distribution `new CloudFrontWebDistribution(this, "Static-Website-Distribution", ...)`
over a given `originConfigs` array, with the error remappings, default root
object and viewer policy taken verbatim from the source. -/
def mkDistribution (configs : List SourceConfiguration) : Distribution :=
  { originConfigs := configs
    defaultRootObject := "index.html"
    errorConfigurations :=
      [ { errorCode := 404, responseCode := 200, responsePagePath := "/index.html" }
      , { errorCode := 403, responseCode := 200, responsePagePath := "/index.html" } ]
    viewerProtocolPolicy := "REDIRECT_TO_HTTPS"
    comment := "CloudFront distribution to the static website" }

/-- The routing table induced by an `originConfigs` array: the ordered flat
sequence of (origin, behavior) bindings. -/
def routingTable (configs : List SourceConfiguration) :
    List (OriginSource × Behavior) :=
  (configs.map (fun c => c.behaviors.map (fun b => (c.origin, b)))).flatten

/-! ## Construct-tree sibling naming (spec-modelled) -/

/-- Assembly-time error taxonomy (the part the claims exercise). -/
inductive AssembleError
  | NameCollision
  deriving DecidableEq, Repr

/-- Modelled from the spec: the scoped-construct base class reached through
`super(scope, id)` lives in the external `constructs` package, not in this
repository's source; per the spec a child's `name` must be unique among the
parent's existing children, and a violation fails with a NameCollision error. -/
def addChild (children : List String) (name : String) :
    Except AssembleError (List String) :=
  if name ∈ children then Except.error AssembleError.NameCollision
  else Except.ok (children ++ [name])

/-- Modelled from the spec: assembling a list of sibling constructs under a
parent adds each child in order; the first duplicate name aborts the whole
assembly, so a failed tree materializes no resource (an `Except.error` result
carries no children list). -/
def assembleChildren (children : List String) :
    List String → Except AssembleError (List String)
  | [] => Except.ok children
  | n :: rest =>
    match addChild children n with
    | Except.error e => Except.error e
    | Except.ok cs => assembleChildren cs rest

/-! ## Grant issuing over an environment of roles (spec-modelled frame) -/

/-- Modelled from the spec: the environment a CapabilityGrant acts on — the
object table and the execution roles created so far. -/
structure GrantEnv where
  table : Table
  roles : List Role
  deriving DecidableEq, Repr

/-- Modelled from the spec: issuing a CapabilityGrant (subject role, object
table handle, capability) attaches the policy statement to the subject role
only; the implementation (`grantReadData`/`grantWriteData` of `aws-cdk-lib`)
is external to the repository source. -/
def issueGrant (env : GrantEnv) (subjectRoleName : String) (cap : Capability) :
    GrantEnv :=
  { env with roles := env.roles.map (fun r =>
      if r.roleName = subjectRoleName then grantData cap env.table r else r) }

/-! ## Theorems -/

/-- Granting on a freshly created role (empty policy) attaches exactly the one
requested statement. -/
theorem grantData_fresh (cap : Capability) (t : Table) (cid rn : String) :
    grantData cap t (mkServiceRole cid rn) =
      { constructId := cid
        roleName := rn
        assumedBy := "lambda.amazonaws.com"
        description := "Allow lambda to call dynamodb tables"
        policy := [PolicyStatement.mk t.tableName cap] } := by
  simp [grantData, mkServiceRole]

/-- Claim C1: assembling the CRUD construct creates four compute functions,
each bound to its own freshly created execution role (no role shared between
any two operations), and issues exactly four grants on the table: the get
role's policy is exactly one Read statement on the table, and each of the
create, update and delete roles' policies is exactly one Write statement on
the table — every grant scoped only to its own operation's role. -/
theorem crud_four_roles_four_grants (props : CRUDConstructProps) :
    ((buildCRUDConstruct props).getLambda.role ≠ (buildCRUDConstruct props).createLambda.role ∧
     (buildCRUDConstruct props).getLambda.role ≠ (buildCRUDConstruct props).updateLambda.role ∧
     (buildCRUDConstruct props).getLambda.role ≠ (buildCRUDConstruct props).deleteLambda.role ∧
     (buildCRUDConstruct props).createLambda.role ≠ (buildCRUDConstruct props).updateLambda.role ∧
     (buildCRUDConstruct props).createLambda.role ≠ (buildCRUDConstruct props).deleteLambda.role ∧
     (buildCRUDConstruct props).updateLambda.role ≠ (buildCRUDConstruct props).deleteLambda.role) ∧
    (buildCRUDConstruct props).getLambda.role.policy =
      [PolicyStatement.mk props.table.tableName Capability.Read] ∧
    (buildCRUDConstruct props).createLambda.role.policy =
      [PolicyStatement.mk props.table.tableName Capability.Write] ∧
    (buildCRUDConstruct props).updateLambda.role.policy =
      [PolicyStatement.mk props.table.tableName Capability.Write] ∧
    (buildCRUDConstruct props).deleteLambda.role.policy =
      [PolicyStatement.mk props.table.tableName Capability.Write] := by
  refine ⟨⟨?_, ?_, ?_, ?_, ?_, ?_⟩, ?_, ?_, ?_, ?_⟩
  · intro h
    have h2 := congrArg Role.policy h
    simp [buildCRUDConstruct, createLambdaRoles, grantReadData, grantWriteData,
      createLambdas, grantData_fresh] at h2
  · intro h
    have h2 := congrArg Role.policy h
    simp [buildCRUDConstruct, createLambdaRoles, grantReadData, grantWriteData,
      createLambdas, grantData_fresh] at h2
  · intro h
    have h2 := congrArg Role.policy h
    simp [buildCRUDConstruct, createLambdaRoles, grantReadData, grantWriteData,
      createLambdas, grantData_fresh] at h2
  · intro h
    have h2 := congrArg Role.roleName h
    simp [buildCRUDConstruct, createLambdaRoles, grantReadData, grantWriteData,
      createLambdas, grantData_fresh] at h2
    exact prefix_append_ne "create-" "update-" props.lambdaPrefixId "-role"
      (by decide) (by decide) h2
  · intro h
    have h2 := congrArg Role.roleName h
    simp [buildCRUDConstruct, createLambdaRoles, grantReadData, grantWriteData,
      createLambdas, grantData_fresh] at h2
    exact prefix_append_ne "create-" "delete-" props.lambdaPrefixId "-role"
      (by decide) (by decide) h2
  · intro h
    have h2 := congrArg Role.roleName h
    simp [buildCRUDConstruct, createLambdaRoles, grantReadData, grantWriteData,
      createLambdas, grantData_fresh] at h2
    exact prefix_append_ne "update-" "delete-" props.lambdaPrefixId "-role"
      (by decide) (by decide) h2
  · simp [buildCRUDConstruct, createLambdaRoles, grantReadData, grantWriteData,
      createLambdas, grantData_fresh, Table.tableName]
  · simp [buildCRUDConstruct, createLambdaRoles, grantReadData, grantWriteData,
      createLambdas, grantData_fresh, Table.tableName]
  · simp [buildCRUDConstruct, createLambdaRoles, grantReadData, grantWriteData,
      createLambdas, grantData_fresh, Table.tableName]
  · simp [buildCRUDConstruct, createLambdaRoles, grantReadData, grantWriteData,
      createLambdas, grantData_fresh, Table.tableName]

/-- Claim C9: the four lambdas created by the CRUD construct share an
identical configuration apart from the operation name: environment variable
`TODO_DATABASE` set to the created table's name, runtime Python 3.9, memory
size 128, timeout 30 seconds, function name `<operation>-<lambdaPrefixId>` and
handler `<lambdaPackage>.<operation>_<lambdaPrefixId>`. -/
theorem crud_lambda_configuration (props : CRUDConstructProps) :
    ((buildCRUDConstruct props).getLambda =
      createLambdas props.lambdaPrefixId props.lambdaPackage "get"
        props.table.tableName (buildCRUDConstruct props).getLambda.role ∧
     (buildCRUDConstruct props).createLambda =
      createLambdas props.lambdaPrefixId props.lambdaPackage "create"
        props.table.tableName (buildCRUDConstruct props).createLambda.role ∧
     (buildCRUDConstruct props).updateLambda =
      createLambdas props.lambdaPrefixId props.lambdaPackage "update"
        props.table.tableName (buildCRUDConstruct props).updateLambda.role ∧
     (buildCRUDConstruct props).deleteLambda =
      createLambdas props.lambdaPrefixId props.lambdaPackage "delete"
        props.table.tableName (buildCRUDConstruct props).deleteLambda.role) ∧
    ∀ op : String, ∀ role : Role,
      (createLambdas props.lambdaPrefixId props.lambdaPackage op
          props.table.tableName role).environment =
        [("TODO_DATABASE", props.table.tableName)] ∧
      (createLambdas props.lambdaPrefixId props.lambdaPackage op
          props.table.tableName role).runtime = "PYTHON_3_9" ∧
      (createLambdas props.lambdaPrefixId props.lambdaPackage op
          props.table.tableName role).memorySize = 128 ∧
      (createLambdas props.lambdaPrefixId props.lambdaPackage op
          props.table.tableName role).timeoutSeconds = 30 ∧
      (createLambdas props.lambdaPrefixId props.lambdaPackage op
          props.table.tableName role).functionName =
        op ++ "-" ++ props.lambdaPrefixId ∧
      (createLambdas props.lambdaPrefixId props.lambdaPackage op
          props.table.tableName role).handler =
        props.lambdaPackage ++ "." ++ op ++ "_" ++ props.lambdaPrefixId := by
  refine ⟨⟨?_, ?_, ?_, ?_⟩, ?_⟩ <;>
    simp [buildCRUDConstruct, createLambdas, Table.tableName]

/-- Claim C2 counterexample: in the end-to-end stack the four registered
gateway paths are `/api/getTodos`, `/api/createTodo`, `/api/updateTodo`,
`/api/deleteTodo` — not `/api/get`, `/api/create`, `/api/update`,
`/api/delete` as the claim states. -/
theorem gateway_paths_not_operation_names :
    registeredPaths (stackRestApi "us-east-1" "amazonaws.com" "restid123") =
      ["/api/getTodos", "/api/createTodo", "/api/updateTodo", "/api/deleteTodo"] ∧
    registeredPaths (stackRestApi "us-east-1" "amazonaws.com" "restid123") ≠
      ["/api/get", "/api/create", "/api/update", "/api/delete"] := by
  constructor
  · rfl
  · intro h
    rw [show registeredPaths (stackRestApi "us-east-1" "amazonaws.com" "restid123") =
        ["/api/getTodos", "/api/createTodo", "/api/updateTodo", "/api/deleteTodo"] from rfl] at h
    simp at h

/-- Claim C2 (amended): for each entry of the stack's `lambdaApis` list the
gateway registers the path `/api/<entry name>` with that entry's HTTP method
and an integration forwarding to that entry's lambda; in the end-to-end
scenario the four registered paths are `/api/getTodos`, `/api/createTodo`,
`/api/updateTodo` and `/api/deleteTodo`. -/
theorem gateway_registers_api_paths (region urlSuffix restApiId : String) :
    (stackRestApi region urlSuffix restApiId).registrations =
      [ { path := "/api/getTodos", method := HttpMethod.GET
          integration := mkLambdaIntegration todosCRUD.getLambda }
      , { path := "/api/createTodo", method := HttpMethod.POST
          integration := mkLambdaIntegration todosCRUD.createLambda }
      , { path := "/api/updateTodo", method := HttpMethod.PUT
          integration := mkLambdaIntegration todosCRUD.updateLambda }
      , { path := "/api/deleteTodo", method := HttpMethod.DELETE
          integration := mkLambdaIntegration todosCRUD.deleteLambda } ] ∧
    registeredPaths (stackRestApi region urlSuffix restApiId) =
      ["/api/getTodos", "/api/createTodo", "/api/updateTodo", "/api/deleteTodo"] := by
  constructor <;> rfl

/-- Claim C10: every lambda registered via `addLambdaIntegration` gets an
integration whose `application/json` request template is the exact string
`\x7b"statusCode": "200"` — an opening brace with no closing brace — regardless
of the lambda's name, function or HTTP method; in particular all four
integrations of the assembled stack carry it. -/
theorem integration_request_template (api : ApiGatewayLambdaConstruct)
    (lambda : LambdaApi) (region urlSuffix restApiId : String) :
    (addLambdaIntegration api lambda).registrations =
      api.registrations ++
        [ { path := "/api/" ++ lambda.name
            method := lambda.type
            integration :=
              { fn := lambda.fn
                requestTemplateJson := "\x7b\"statusCode\": \"200\"" } } ] ∧
    ((stackRestApi region urlSuffix restApiId).registrations.map
        (fun reg => reg.integration.requestTemplateJson)) =
      [ "\x7b\"statusCode\": \"200\"", "\x7b\"statusCode\": \"200\""
      , "\x7b\"statusCode\": \"200\"", "\x7b\"statusCode\": \"200\"" ] := by
  constructor <;> rfl

/-- Claim C3: the composed routing table of the assembled stack is the
two-entry sequence [the `/api/*` binding routing to the gateway origin, then
the default binding routing to the storage origin]; exactly one binding is
marked default and it is the last entry, so every non-default binding precedes
the default one. -/
theorem routing_table_order (restApi : ApiGatewayLambdaConstruct)
    (bucket : Bucket) (oai : String) :
    routingTable (originsAndBehavior restApi bucket oai) =
      [ ( OriginSource.customOrigin restApi.apiEndpoint
            ("/" ++ restApi.stageName) "HTTPS_ONLY"
        , apiBehavior )
      , (OriginSource.s3Origin bucket oai, s3DefaultBehavior) ] ∧
    apiBehavior.pathPattern = some "/api/*" ∧
    apiBehavior.isDefaultBehavior = false ∧
    s3DefaultBehavior.isDefaultBehavior = true ∧
    (routingTable (originsAndBehavior restApi bucket oai)).countP
      (fun e => e.2.isDefaultBehavior) = 1 ∧
    ((routingTable (originsAndBehavior restApi bucket oai)).getLast?).map
      (fun e => e.2.isDefaultBehavior) = some true := by
  refine ⟨rfl, rfl, rfl, rfl, ?_, ?_⟩ <;>
    simp [routingTable, originsAndBehavior, apiBehavior, s3DefaultBehavior]

/-- Claim C4: in the assembled stack the storage-origin binding has a default
TTL of exactly 3 minutes and a max TTL of exactly 5 minutes, the API-origin
binding has a default TTL of exactly 0 minutes (and no max TTL set), and the
distribution built from the composed table carries these exact values
unchanged in its origin configuration. -/
theorem distribution_ttl_values (restApi : ApiGatewayLambdaConstruct)
    (bucket : Bucket) (oai : String) :
    (mkDistribution (originsAndBehavior restApi bucket oai)).originConfigs =
      originsAndBehavior restApi bucket oai ∧
    ((mkDistribution (originsAndBehavior restApi bucket oai)).originConfigs.map
        (fun c => c.behaviors.map
          (fun b => (b.isDefaultBehavior, b.defaultTtlMinutes, b.maxTtlMinutes)))) =
      [[(false, some 0, none)], [(true, some 3, some 5)]] ∧
    apiBehavior.defaultTtlMinutes = some 0 ∧
    s3DefaultBehavior.defaultTtlMinutes = some 3 ∧
    s3DefaultBehavior.maxTtlMinutes = some 5 := by
  refine ⟨rfl, ?_, rfl, rfl, rfl⟩
  rfl

/-- Claim C8: the distribution attached to the composed routing table carries
error-remapping rules mapping the 404 (not found) and 403 (forbidden)
responses to 200 (success) responses serving the fixed fallback document
`/index.html`. -/
theorem distribution_error_remapping (restApi : ApiGatewayLambdaConstruct)
    (bucket : Bucket) (oai : String) :
    (mkDistribution (originsAndBehavior restApi bucket oai)).errorConfigurations =
      [ { errorCode := 404, responseCode := 200, responsePagePath := "/index.html" }
      , { errorCode := 403, responseCode := 200, responsePagePath := "/index.html" } ] := by
  rfl

/-- Claim C6: issuing the same capability grant (capability, table, subject
role) twice with identical operands yields the same role state — and so the
same attached policy — as issuing it once: a re-requested grant is a no-op and
adds no duplicate policy statement. -/
theorem grant_idempotent (cap : Capability) (t : Table) (r : Role) :
    grantData cap t (grantData cap t r) = grantData cap t r := by
  unfold grantData
  by_cases h : PolicyStatement.mk t.tableName cap ∈ r.policy
  · simp [h]
  · simp [h]

/-- Claim C7: issuing a capability grant mutates only the subject role's
access policy — the table is unchanged, the number of roles is unchanged, and
every role whose name differs from the subject's is left exactly as it was. -/
theorem grant_frame (env : GrantEnv) (s : String) (cap : Capability) :
    (issueGrant env s cap).table = env.table ∧
    (issueGrant env s cap).roles.length = env.roles.length ∧
    ∀ i : Nat, ∀ r : Role, env.roles[i]? = some r → r.roleName ≠ s →
      (issueGrant env s cap).roles[i]? = some r := by
  refine ⟨rfl, by simp [issueGrant], ?_⟩
  intro i r hi hne
  simp [issueGrant, List.getElem?_map, hi, hne]

/-- Witness for claim C7 at a concrete environment of two roles: granting to
the update role leaves the get role untouched. -/
theorem grant_frame_witness :
    ({ table := { constructId := "T", props :=
         { partitionKey := { name := "user_id", attrType := "STRING" }
           sortKey := none, billingMode := "PAY_PER_REQUEST"
           tableName := "todos-table", removalPolicy := "DESTROY" } }
       roles :=
         [ mkServiceRole "GetR" "get-todos-role"
         , mkServiceRole "UpdateR" "update-todos-role" ] } : GrantEnv).roles[0]? =
      some (mkServiceRole "GetR" "get-todos-role") ∧
    (mkServiceRole "GetR" "get-todos-role").roleName ≠ "update-todos-role" ∧
    (issueGrant
      { table := { constructId := "T", props :=
          { partitionKey := { name := "user_id", attrType := "STRING" }
            sortKey := none, billingMode := "PAY_PER_REQUEST"
            tableName := "todos-table", removalPolicy := "DESTROY" } }
        roles :=
          [ mkServiceRole "GetR" "get-todos-role"
          , mkServiceRole "UpdateR" "update-todos-role" ] }
      "update-todos-role" Capability.Write).roles[0]? =
      some (mkServiceRole "GetR" "get-todos-role") :=
  ⟨by decide, by decide,
    (grant_frame
      { table := { constructId := "T", props :=
          { partitionKey := { name := "user_id", attrType := "STRING" }
            sortKey := none, billingMode := "PAY_PER_REQUEST"
            tableName := "todos-table", removalPolicy := "DESTROY" } }
        roles :=
          [ mkServiceRole "GetR" "get-todos-role"
          , mkServiceRole "UpdateR" "update-todos-role" ] }
      "update-todos-role" Capability.Write).2.2 0
      (mkServiceRole "GetR" "get-todos-role") (by decide) (by decide)⟩

/-- Claim C5: under any parent whose existing children have distinct names,
assembling further siblings that introduce a duplicate name (either among
themselves or against an existing child) fails with NameCollision, and the
failed assembly materializes no resource (the result is an error carrying no
children list). -/
theorem sibling_name_collision (children names : List String)
    (hnd : children.Nodup) (hdup : ¬ (children ++ names).Nodup) :
    assembleChildren children names = Except.error AssembleError.NameCollision := by
  induction names generalizing children with
  | nil =>
    rw [List.append_nil] at hdup
    exact absurd hnd hdup
  | cons n rest ih =>
    by_cases h : n ∈ children
    · simp [assembleChildren, addChild, h]
    · have hstep : assembleChildren children (n :: rest) =
          assembleChildren (children ++ [n]) rest := by
        simp [assembleChildren, addChild, h]
      rw [hstep]
      apply ih
      · simp [List.nodup_append, hnd, h]
      · rw [List.append_assoc]
        simpa using hdup

/-- Witness for claim C5: under a parent with child `"a"`, adding siblings
`"b"` and then `"a"` again collides and the assembly yields no children. -/
theorem sibling_name_collision_witness :
    (["a"] : List String).Nodup ∧
    ¬ ((["a"] : List String) ++ ["b", "a"]).Nodup ∧
    assembleChildren ["a"] ["b", "a"] =
      Except.error AssembleError.NameCollision :=
  ⟨by decide, by decide, sibling_name_collision ["a"] ["b", "a"] (by decide) (by decide)⟩

end AwsStaticWebsite
